import Mathlib

/-!
Verification of the People-in-News ingestion backend.

Shallow embedding of the backend sources:
  backend/validators.py   (deny-list name validation)
  backend/crud.py         (person / article / association resolution)
  backend/main.py         (pipeline, run coordination)
  backend/image_fetch.py  (image resolution)

Database tables are embedded as lists of records; SQLAlchemy row mutation
becomes functional record update threaded through an explicit state.
Network calls (news fetch, LLM extraction, image lookups) are embedded as
oracle parameters, since their results are external inputs to the code.
-/

namespace PeopleInNews

/-! ## Python string truthiness

Python treats the empty string and None as falsy.  Optional string columns
are embedded as Option String; truthiness of such a value is below. -/

def optTruthy : Option String → Bool
  | none => false
  | some s => s != ""

/-- Python str.lower (the sources only lower-case ASCII names). -/
def pyLower (s : String) : String := ⟨s.data.map Char.toLower⟩

/-- Python str.strip: drop whitespace from both ends. -/
def pyStrip (s : String) : String :=
  ⟨((s.data.dropWhile Char.isWhitespace).reverse.dropWhile Char.isWhitespace).reverse⟩

/-- Split a character list at every character satisfying p (separators kept
as boundaries, empty pieces preserved), as Python str.split with an explicit
separator does for a one-character separator. -/
def splitWhen (p : Char → Bool) : List Char → List (List Char)
  | [] => [[]]
  | c :: t =>
      let r := splitWhen p t
      if p c then [] :: r
      else
        match r with
        | [] => [[c]]
        | h :: t2 => (c :: h) :: t2

/-- Python s.split(",") over strings. -/
def pySplitComma (s : String) : List String :=
  (splitWhen (fun c => c == ',') s.data).map (fun l => ⟨l⟩)

/-- Python s.split() with no argument: split on whitespace runs, dropping
empty pieces. -/
def pySplitWs (s : String) : List String :=
  ((splitWhen Char.isWhitespace s.data).filter (fun l => l ≠ [])).map (fun l => ⟨l⟩)

/-! ## validators.py -/

/-- The deny-list from validators.py (BANNED_WORDS). -/
def BANNED_WORDS : List String :=
  ["taliban", "isis", "al-qaeda", "government", "cabinet",
   "army", "police", "committee", "board", "ministry", "forces"]

/-- Python substring containment, needle in hay, over character lists. -/
def strContains (needle : List Char) : List Char → Bool
  | [] => needle.isPrefixOf []
  | a :: t => needle.isPrefixOf (a :: t) || strContains needle t

/-- validators.py, def named with a leading underscore in the source:
if not text: return True; return any(bad in text.lower() for bad in BANNED_WORDS). -/
def contains_banned (text : String) : Bool :=
  if text = "" then true
  else BANNED_WORDS.any (fun bad => strContains bad.data (pyLower text).data)

/-- validators.py, is_valid_person_name: false on empty (the non-string case
is ruled out by the embedding types), else the negation of contains_banned. -/
def is_valid_person_name (name : String) : Bool :=
  if name = "" then false
  else !(contains_banned name)

/-- strContains decides list-infix occurrence. -/
theorem strContains_iff (needle hay : List Char) :
    strContains needle hay = true ↔ needle <:+: hay := by
  induction hay with
  | nil => simp [strContains]
  | cons a t ih => simp [strContains, ih, List.infix_cons_iff]

/-- Claim C2 as stated is false at the input Hamas: the deny-list contains
no substring of hamas, so is_valid_person_name accepts it. -/
theorem C2_counterexample : is_valid_person_name "Hamas" = true := by decide

/-- Claim C2 (amended): is_valid_person_name rejects
Taliban Spokesperson and the empty string and accepts Malala Yousafzai,
but it accepts Hamas, which is not on the configured deny-list; in general a
name is invalid exactly when it is empty or its lower-casing contains some
deny-listed word as a substring. -/
theorem C2_amended :
    is_valid_person_name "Hamas" = true ∧
    is_valid_person_name "Taliban Spokesperson" = false ∧
    is_valid_person_name "" = false ∧
    is_valid_person_name "Malala Yousafzai" = true ∧
    ∀ name : String, is_valid_person_name name = false ↔
      (name = "" ∨ ∃ bad ∈ BANNED_WORDS, bad.data <:+: (pyLower name).data) := by
  refine ⟨by decide, by decide, by decide, by decide, ?_⟩
  intro name
  unfold is_valid_person_name contains_banned
  by_cases h : name = ""
  · simp [h]
  · simp [h, List.any_eq_true, strContains_iff]

/-! ## crud.py: Person resolution

The people table is embedded as a list of Person records; the SQLAlchemy
select-by-name is find? with an exact string comparison (the name column
carries no case-insensitive collation), and row mutation is a positional
replacement in the list. -/

structure Person where
  id : Nat
  name : String
  image_url : Option String
deriving DecidableEq

/-- crud.py get_or_create_person: look the raw name up by exact equality;
if found, backfill image_url when the stored one is blank and a truthy one
is supplied; otherwise insert a fresh row.  The fresh id stands for the
autoincrement primary key produced by db.flush(). -/
def get_or_create_person (db : List Person) (name : String) (image_url : Option String) :
    Person × List Person :=
  match db.find? (fun p => p.name == name) with
  | some person =>
      if optTruthy image_url && !(optTruthy person.image_url) then
        let person2 := { person with image_url := image_url }
        (person2, db.map (fun p => if p.name = name then person2 else p))
      else
        (person, db)
  | none =>
      let person : Person := { id := db.length, name := name, image_url := image_url }
      (person, db ++ [person])

/-- Replacing every row whose name matches by a record with that same name
commutes with the select: the select then returns the replacement exactly
when it previously returned anything. -/
theorem find?_replace_person (db : List Person) (name : String) (q : Person)
    (hq : q.name = name) :
    (db.map (fun p => if p.name = name then q else p)).find? (fun p => p.name == name)
      = if (db.find? (fun p => p.name == name)).isSome then some q else none := by
  induction db with
  | nil => simp
  | cons p t ih =>
      by_cases h : p.name = name
      · simp [h, hq]
      · simp [h, ih]

/-- When the select hits, get_or_create_person returns that row (possibly
image-backfilled, which changes neither id nor name) and inserts nothing. -/
theorem goc_found (db : List Person) (name : String) (i : Option String) (q : Person)
    (h : db.find? (fun p => p.name == name) = some q) :
    (get_or_create_person db name i).1.id = q.id ∧
    (get_or_create_person db name i).1.name = q.name ∧
    (get_or_create_person db name i).2.length = db.length := by
  unfold get_or_create_person
  rw [h]
  by_cases hb : (optTruthy i && !(optTruthy q.image_url)) = true
  · simp [hb]
  · rw [Bool.not_eq_true] at hb
    simp [hb]

/-- After any call, selecting the same raw name returns the person the call
returned. -/
theorem goc_self_find (db : List Person) (name : String) (i : Option String) :
    ((get_or_create_person db name i).2).find? (fun p => p.name == name)
      = some (get_or_create_person db name i).1 := by
  rcases h : db.find? (fun p => p.name == name) with _ | q
  · unfold get_or_create_person
    rw [h]
    simp only []
    rw [List.find?_append, h]
    simp
  · have hqname : q.name = name := by
      have := List.find?_some h
      simpa using this
    unfold get_or_create_person
    rw [h]
    by_cases hb : (optTruthy i && !(optTruthy q.image_url)) = true
    · simp only [hb, if_true]
      rw [find?_replace_person _ _ _ (by simpa using hqname)]
      simp [h]
    · rw [Bool.not_eq_true] at hb
      simp [hb, h]

/-- Claim C1 as stated is false: the lookup key is the raw name compared
exactly, so a case variant and an internal-whitespace variant of an existing
name each create a second Person row. -/
theorem C1_counterexample :
    ((get_or_create_person ((get_or_create_person [] "Joe Biden" none).2)
        "joe biden" none).2).length = 2 ∧
    ((get_or_create_person ((get_or_create_person [] "Joe Biden" none).2)
        "Joe  Biden" none).2).length = 2 := by
  decide

/-- Claim C1 (amended): get_or_create_person deduplicates only under exact
equality of the raw name: calling it again with the very same string returns
the same row (same id, same name) and creates no second row; names that
differ in case or whitespace are distinct keys (see the counterexample). -/
theorem C1_amended (db : List Person) (name : String) (i1 i2 : Option String) :
    (get_or_create_person (get_or_create_person db name i1).2 name i2).2.length
        = (get_or_create_person db name i1).2.length ∧
    (get_or_create_person (get_or_create_person db name i1).2 name i2).1.id
        = (get_or_create_person db name i1).1.id ∧
    (get_or_create_person (get_or_create_person db name i1).2 name i2).1.name
        = (get_or_create_person db name i1).1.name := by
  have h := goc_self_find db name i1
  have h2 := goc_found (get_or_create_person db name i1).2 name i2 _ h
  exact ⟨h2.2.2, h2.1, h2.2.1⟩

/-- Claim C7 as stated is false: with an input that normalizes to the empty
string the function still creates and returns a Person row rather than a
null result, and a fresh lower-case input is stored verbatim, not
token-capitalized. -/
theorem C7_counterexample :
    (get_or_create_person [] "" none).2.length = 1 ∧
    (get_or_create_person [] "joe biden" none).1.name = "joe biden" ∧
    (get_or_create_person [] "joe biden" none).1.name ≠ "Joe Biden" := by
  decide

/-- Claim C7 (amended): get_or_create_person never returns a null or absent
result, for the empty name included; the returned Person always carries
exactly the raw input name, and when no row with that exact name exists a
new row is created holding the input name verbatim (no per-token
capitalization) together with the supplied image. -/
theorem C7_amended (db : List Person) (name : String) (i : Option String) :
    (get_or_create_person db name i).1.name = name ∧
    (db.find? (fun p => p.name == name) = none →
      get_or_create_person db name i
        = ({ id := db.length, name := name, image_url := i },
           db ++ [{ id := db.length, name := name, image_url := i }])) := by
  constructor
  · rcases h : db.find? (fun p => p.name == name) with _ | q
    · unfold get_or_create_person
      rw [h]
    · have hqname : q.name = name := by
        have := List.find?_some h
        simpa using this
      have := (goc_found db name i q h).2.1
      rw [this, hqname]
  · intro h
    unfold get_or_create_person
    rw [h]

/-- Closed witness for the amended C7 at a concrete fresh name. -/
theorem C7_amended_witness :
    ([] : List Person).find? (fun p => p.name == "Ada Lovelace") = none ∧
    ((get_or_create_person [] "Ada Lovelace" none).1.name = "Ada Lovelace" ∧
      (([] : List Person).find? (fun p => p.name == "Ada Lovelace") = none →
        get_or_create_person [] "Ada Lovelace" none
          = ({ id := 0, name := "Ada Lovelace", image_url := none },
             [{ id := 0, name := "Ada Lovelace", image_url := none }]))) :=
  ⟨by decide, C7_amended [] "Ada Lovelace" none⟩

/-! ## crud.py: Article resolution

The articles table is a list of Article records, keyed by exact link.
published_at is embedded as Option Nat (a datetime is always truthy in
Python, None is falsy); the optional string columns use optTruthy. -/

structure Article where
  id : Nat
  title : String
  summary : String
  link : String
  published_at : Option Nat
  image_url : Option String
  source_name : Option String
deriving DecidableEq

/-- The found-row update block of crud.py get_or_create_article, one if per
source line: fill published_at, image_url, source_name when currently blank
and a truthy value is supplied; overwrite title and summary when the new
value is truthy and differs. -/
def updateArticle (art : Article) (title summary : String) (published_at : Option Nat)
    (image_url : Option String) (source_name : Option String) : Article :=
  let a1 := if art.published_at = none ∧ published_at ≠ none then
              { art with published_at := published_at } else art
  let a2 := if optTruthy a1.image_url = false ∧ optTruthy image_url = true then
              { a1 with image_url := image_url } else a1
  let a3 := if optTruthy a2.source_name = false ∧ optTruthy source_name = true then
              { a2 with source_name := source_name } else a2
  let a4 := if title ≠ "" ∧ a3.title ≠ title then { a3 with title := title } else a3
  if summary ≠ "" ∧ a4.summary ≠ summary then { a4 with summary := summary } else a4

/-- crud.py get_or_create_article: select by exact link; update the found
row in place, or insert a fresh row with all supplied fields. -/
def get_or_create_article (db : List Article) (title summary link : String)
    (published_at : Option Nat) (image_url : Option String) (source_name : Option String) :
    Article × List Article :=
  match db.find? (fun a => a.link == link) with
  | some art =>
      let art2 := updateArticle art title summary published_at image_url source_name
      (art2, db.map (fun a => if a.link = link then art2 else a))
  | none =>
      let art : Article := { id := db.length, title := title, summary := summary, link := link,
                             published_at := published_at, image_url := image_url,
                             source_name := source_name }
      (art, db ++ [art])

/-- How many of the fields of a row are populated, in the Python-truthiness
sense. -/
def populatedCount (a : Article) : Nat :=
  (if a.title ≠ "" then 1 else 0) + (if a.summary ≠ "" then 1 else 0) +
  (if a.link ≠ "" then 1 else 0) + (if a.published_at ≠ none then 1 else 0) +
  (if optTruthy a.image_url = true then 1 else 0) +
  (if optTruthy a.source_name = true then 1 else 0)

theorem updateArticle_title (art : Article) (t s : String) (p : Option Nat)
    (i sn : Option String) :
    (updateArticle art t s p i sn).title = if t ≠ "" ∧ art.title ≠ t then t else art.title := by
  simp only [updateArticle]
  split_ifs <;> simp_all

theorem updateArticle_summary (art : Article) (t s : String) (p : Option Nat)
    (i sn : Option String) :
    (updateArticle art t s p i sn).summary
      = if s ≠ "" ∧ art.summary ≠ s then s else art.summary := by
  simp only [updateArticle]
  split_ifs <;> simp_all

theorem updateArticle_link (art : Article) (t s : String) (p : Option Nat)
    (i sn : Option String) :
    (updateArticle art t s p i sn).link = art.link := by
  simp only [updateArticle]
  split_ifs <;> simp_all

theorem updateArticle_published (art : Article) (t s : String) (p : Option Nat)
    (i sn : Option String) :
    (updateArticle art t s p i sn).published_at
      = if art.published_at = none ∧ p ≠ none then p else art.published_at := by
  simp only [updateArticle]
  split_ifs <;> simp_all

theorem updateArticle_image (art : Article) (t s : String) (p : Option Nat)
    (i sn : Option String) :
    (updateArticle art t s p i sn).image_url
      = if optTruthy art.image_url = false ∧ optTruthy i = true then i else art.image_url := by
  simp only [updateArticle]
  split_ifs <;> simp_all

theorem updateArticle_source (art : Article) (t s : String) (p : Option Nat)
    (i sn : Option String) :
    (updateArticle art t s p i sn).source_name
      = if optTruthy art.source_name = false ∧ optTruthy sn = true then sn
        else art.source_name := by
  simp only [updateArticle]
  split_ifs <;> simp_all

/-- One summand of populatedCount never shrinks when its condition can only
move from false to true. -/
theorem ite_one_le (p q : Prop) [Decidable p] [Decidable q] (h : p → q) :
    (if p then (1 : Nat) else 0) ≤ (if q then (1 : Nat) else 0) := by
  split_ifs with h1 h2 <;> simp_all

/-- Claim C5: re-resolving an existing article never loses a populated
field; title and summary are overwritten exactly when a differing truthy
value arrives; published_at, image_url and source_name are fill-if-absent;
an unseen link inserts a fresh row with all supplied fields. -/
theorem C5_resolve_article_backfill (art : Article) (db : List Article)
    (t s l : String) (p : Option Nat) (i sn : Option String) :
    populatedCount art ≤ populatedCount (updateArticle art t s p i sn) ∧
    (updateArticle art t s p i sn).title
      = (if t ≠ "" ∧ art.title ≠ t then t else art.title) ∧
    (updateArticle art t s p i sn).summary
      = (if s ≠ "" ∧ art.summary ≠ s then s else art.summary) ∧
    (updateArticle art t s p i sn).published_at
      = (if art.published_at = none ∧ p ≠ none then p else art.published_at) ∧
    (updateArticle art t s p i sn).image_url
      = (if optTruthy art.image_url = false ∧ optTruthy i = true then i else art.image_url) ∧
    (updateArticle art t s p i sn).source_name
      = (if optTruthy art.source_name = false ∧ optTruthy sn = true then sn
         else art.source_name) ∧
    (db.find? (fun a => a.link == l) = some art →
      (get_or_create_article db t s l p i sn).1 = updateArticle art t s p i sn) ∧
    (db.find? (fun a => a.link == l) = none →
      get_or_create_article db t s l p i sn
        = ({ id := db.length, title := t, summary := s, link := l, published_at := p,
             image_url := i, source_name := sn },
           db ++ [{ id := db.length, title := t, summary := s, link := l, published_at := p,
                    image_url := i, source_name := sn }])) := by
  refine ⟨?_, updateArticle_title art t s p i sn, updateArticle_summary art t s p i sn,
          updateArticle_published art t s p i sn, updateArticle_image art t s p i sn,
          updateArticle_source art t s p i sn, ?_, ?_⟩
  · simp only [populatedCount, updateArticle_title, updateArticle_summary,
      updateArticle_published, updateArticle_image, updateArticle_source, updateArticle_link]
    have ht : art.title ≠ "" → (if t ≠ "" ∧ art.title ≠ t then t else art.title) ≠ "" := by
      intro h0; split_ifs with hc
      · exact hc.1
      · exact h0
    have hs : art.summary ≠ "" → (if s ≠ "" ∧ art.summary ≠ s then s else art.summary) ≠ "" := by
      intro h0; split_ifs with hc
      · exact hc.1
      · exact h0
    have hp : art.published_at ≠ none →
        (if art.published_at = none ∧ p ≠ none then p else art.published_at) ≠ none := by
      intro h0; split_ifs with hc
      · exact absurd hc.1 h0
      · exact h0
    have hi : optTruthy art.image_url = true →
        optTruthy (if optTruthy art.image_url = false ∧ optTruthy i = true then i
                   else art.image_url) = true := by
      intro h0; split_ifs with hc
      · exact hc.2
      · exact h0
    have hsn : optTruthy art.source_name = true →
        optTruthy (if optTruthy art.source_name = false ∧ optTruthy sn = true then sn
                   else art.source_name) = true := by
      intro h0; split_ifs with hc
      · exact hc.2
      · exact h0
    exact Nat.add_le_add (Nat.add_le_add (Nat.add_le_add (Nat.add_le_add (Nat.add_le_add
      (ite_one_le _ _ ht) (ite_one_le _ _ hs)) (Nat.le_refl _))
      (ite_one_le _ _ hp)) (ite_one_le _ _ hi)) (ite_one_le _ _ hsn)
  · intro h
    unfold get_or_create_article
    rw [h]
  · intro h
    unfold get_or_create_article
    rw [h]

/-- Closed witness for C5: re-ingesting a concrete stored article with a
fresh published_at fills it, and a fresh link inserts a row. -/
theorem C5_witness :
    ([({ id := 0, title := "T", summary := "S", link := "http://a", published_at := none,
         image_url := none, source_name := none } : Article)].find?
        (fun a => a.link == "http://a")
      = some { id := 0, title := "T", summary := "S", link := "http://a",
               published_at := none, image_url := none, source_name := none }) ∧
    (([] : List Article).find? (fun a => a.link == "http://a") = none) ∧
    (populatedCount { id := 0, title := "T", summary := "S", link := "http://a",
                      published_at := none, image_url := none, source_name := none }
      ≤ populatedCount (updateArticle
          { id := 0, title := "T", summary := "S", link := "http://a", published_at := none,
            image_url := none, source_name := none } "T" "S" (some 7) none none)) ∧
    ((get_or_create_article
        [{ id := 0, title := "T", summary := "S", link := "http://a", published_at := none,
           image_url := none, source_name := none }] "T" "S" "http://a" (some 7) none none).1
      = updateArticle
          { id := 0, title := "T", summary := "S", link := "http://a", published_at := none,
            image_url := none, source_name := none } "T" "S" (some 7) none none) ∧
    (get_or_create_article [] "T" "S" "http://a" (some 7) none none
      = ({ id := 0, title := "T", summary := "S", link := "http://a", published_at := some 7,
           image_url := none, source_name := none },
         [{ id := 0, title := "T", summary := "S", link := "http://a", published_at := some 7,
            image_url := none, source_name := none }])) :=
  ⟨by decide, by decide,
   (C5_resolve_article_backfill _ [] "T" "S" "http://a" (some 7) none none).1,
   (C5_resolve_article_backfill _
      [{ id := 0, title := "T", summary := "S", link := "http://a", published_at := none,
         image_url := none, source_name := none }] "T" "S" "http://a" (some 7) none
         none).2.2.2.2.2.2.1 (by decide),
   (C5_resolve_article_backfill
      { id := 0, title := "T", summary := "S", link := "http://a", published_at := none,
        image_url := none, source_name := none } [] "T" "S" "http://a" (some 7) none
        none).2.2.2.2.2.2.2 (by decide)⟩

/-! ## crud.py: person-article association -/

structure PersonArticle where
  person_id : Nat
  article_id : Nat
  is_primary : Bool
deriving DecidableEq

/-- The session view of the person_articles table.  The source iterates
article.person_articles, a SQLAlchemy relationship collection that is
loaded from the rows committed before this session and cached at its first
access; a row inserted in this session by db.add carries raw foreign-key
ids (no relationship assignment, so no backref event updates the cached
collection), link_person_article never flushes, the session is built with
autoflush disabled, and models.py declares no unique constraint on the
pair.  A pending row is therefore invisible to every later scan in the same
session and becomes visible only after db.commit, which expires the loaded
collections. -/
structure AssocSession where
  committed : List PersonArticle
  pending : List PersonArticle
deriving DecidableEq

/-- db.commit at the end of crud.py ingest_newscards: the pending inserts
become table rows. -/
def commitSession (s : AssocSession) : AssocSession :=
  { committed := s.committed ++ s.pending, pending := [] }

/-- crud.py link_person_article: scan the associations of the article
(those visible to the cached relationship collection, i.e. the committed
rows whose article_id matches) for one referencing this person; return it
unchanged if present, else add a new row with the supplied is_primary flag
to the pending inserts of the session. -/
def link_person_article (s : AssocSession) (person_id article_id : Nat)
    (is_primary : Bool) : PersonArticle × AssocSession :=
  match s.committed.find? (fun pa => pa.article_id == article_id && pa.person_id == person_id) with
  | some pa => (pa, s)
  | none =>
      let pa : PersonArticle := { person_id := person_id, article_id := article_id,
                                  is_primary := is_primary }
      (pa, { s with pending := s.pending ++ [pa] })

/-- Claim C6 is right about the intent — the source comment says the scan
is there to avoid duplicates — but the code misses it within a session:
linking a fresh (person, article) pair twice in one session inserts two
rows for the pair, because the second scan still sees the collection cached
before the first insert.  This theorem evaluates the code at that failing
input, and also shows the half that does work: once the pair is committed,
a later session returns the stored row unchanged — the supplied is_primary
flag is ignored — and inserts nothing. -/
theorem C6_link_duplicate_evaluation :
    ((commitSession
        (link_person_article
          (link_person_article { committed := [], pending := [] } 1 2 true).2
          1 2 true).2).committed.countP
      (fun pa => pa.article_id == 2 && pa.person_id == 1)) = 2 ∧
    (link_person_article
        { committed := [{ person_id := 1, article_id := 2, is_primary := true },
                        { person_id := 1, article_id := 2, is_primary := true }],
          pending := [] } 1 2 false).2
      = { committed := [{ person_id := 1, article_id := 2, is_primary := true },
                        { person_id := 1, article_id := 2, is_primary := true }],
          pending := [] } ∧
    (link_person_article
        { committed := [{ person_id := 1, article_id := 2, is_primary := true },
                        { person_id := 1, article_id := 2, is_primary := true }],
          pending := [] } 1 2 false).1.is_primary = true := by
  decide

/-! ## main.py: run coordination

main.py guards every pipeline run with one asyncio.Lock, _run_lock.  This
is embedded as a transition system: running counts the tasks currently
holding the lock and executing run_pipeline_and_ingest, waiting counts the
tasks suspended inside the lock acquire.  The three events are the three
things that touch the lock:
  manualTrigger — the refresh_news endpoint: it first tests
    _run_lock.locked() and answers busy without touching anything when the
    lock is held (there is no suspension point between the test and the
    acquire, so the test is atomic); otherwise it acquires and runs;
  periodicTick — one iteration of periodic_refresh: async with _run_lock
    acquires when free, and otherwise suspends the task in the waiter queue
    of the lock (it never skips);
  runFinish — a run completes and the async with block releases the lock,
    which hands it to a waiter when one exists. -/

structure CoordState where
  running : Nat
  waiting : Nat
deriving DecidableEq

inductive CoordEvent where
  | manualTrigger
  | periodicTick
  | runFinish
deriving DecidableEq

def coordStep (s : CoordState) : CoordEvent → CoordState
  | .manualTrigger =>
      if 0 < s.running then s
      else { running := s.running + 1, waiting := s.waiting }
  | .periodicTick =>
      if 0 < s.running then { running := s.running, waiting := s.waiting + 1 }
      else { running := s.running + 1, waiting := s.waiting }
  | .runFinish =>
      if s.running = 0 then s
      else if 0 < s.waiting then { running := s.running, waiting := s.waiting - 1 }
      else { running := s.running - 1, waiting := s.waiting }

inductive ManualResponse where
  | busy
  | ok
deriving DecidableEq

/-- main.py refresh_news: answer busy with the state untouched when the
lock is held, else take the lock and start the run. -/
def refresh_news (s : CoordState) : ManualResponse × CoordState :=
  if 0 < s.running then (.busy, s)
  else (.ok, { running := s.running + 1, waiting := s.waiting })

theorem coordStep_running_le (s : CoordState) (e : CoordEvent) (h : s.running ≤ 1) :
    (coordStep s e).running ≤ 1 := by
  cases e <;> simp only [coordStep] <;> split_ifs <;> simp_all

theorem coordSteps_running_le (evs : List CoordEvent) (s : CoordState) (h : s.running ≤ 1) :
    (evs.foldl coordStep s).running ≤ 1 := by
  induction evs generalizing s with
  | nil => exact h
  | cons e t ih => exact ih _ (coordStep_running_le s e h)

/-- Claim C3 as stated is false: a periodic tick arriving while a run holds
the lock joins the waiter queue (waiting grows), it is not skipped, and
when the in-flight run finishes the queued tick takes the lock and runs. -/
theorem C3_counterexample :
    coordStep { running := 1, waiting := 0 } .periodicTick
        = { running := 1, waiting := 1 } ∧
    coordStep { running := 1, waiting := 0 } .periodicTick
        ≠ { running := 1, waiting := 0 } ∧
    coordStep (coordStep { running := 1, waiting := 0 } .periodicTick) .runFinish
        = { running := 1, waiting := 0 } := by
  decide

/-- Claim C3 (amended): a scheduled tick that fires while the gate is held
does not skip; it queues on the gate, and when the in-flight run releases
the gate the queued tick acquires it, leaving one run in flight again. -/
theorem C3_amended (s : CoordState) (h : 0 < s.running) :
    coordStep s .periodicTick = { running := s.running, waiting := s.waiting + 1 } ∧
    coordStep (coordStep s .periodicTick) .runFinish = s := by
  have h0 : ¬s.running = 0 := by omega
  constructor
  · simp [coordStep, h]
  · simp [coordStep, h, h0]

/-- Closed witness for the amended C3. -/
theorem C3_amended_witness :
    0 < (CoordState.mk 1 2).running ∧
    (coordStep (CoordState.mk 1 2) .periodicTick = CoordState.mk 1 3 ∧
     coordStep (coordStep (CoordState.mk 1 2) .periodicTick) .runFinish = CoordState.mk 1 2) :=
  ⟨by decide, C3_amended (CoordState.mk 1 2) (by decide)⟩

/-- Claim C4: a manual trigger while a run is in flight answers busy and
changes nothing; refresh_news agrees with the coordinator transition; and
along every event sequence from the idle state at most one run is ever in
flight. -/
theorem C4_manual_busy_mutex :
    (∀ s : CoordState, 0 < s.running → refresh_news s = (.busy, s)) ∧
    (∀ s : CoordState, (refresh_news s).2 = coordStep s .manualTrigger) ∧
    (∀ evs : List CoordEvent,
      (evs.foldl coordStep { running := 0, waiting := 0 }).running ≤ 1) := by
  refine ⟨?_, ?_, ?_⟩
  · intro s h
    simp [refresh_news, h]
  · intro s
    simp only [refresh_news, coordStep]
    split_ifs <;> rfl
  · intro evs
    exact coordSteps_running_le evs _ (by simp)

/-- Closed witness for C4 at a held-gate state and a concrete trace. -/
theorem C4_witness :
    0 < (CoordState.mk 1 0).running ∧
    refresh_news (CoordState.mk 1 0) = (.busy, CoordState.mk 1 0) ∧
    ([CoordEvent.manualTrigger, .periodicTick, .manualTrigger, .runFinish,
        .manualTrigger].foldl coordStep { running := 0, waiting := 0 }).running ≤ 1 :=
  ⟨by decide, C4_manual_busy_mutex.1 (CoordState.mk 1 0) (by decide),
   C4_manual_busy_mutex.2.2 [CoordEvent.manualTrigger, .periodicTick, .manualTrigger,
     .runFinish, .manualTrigger]⟩

/-! ## main.py: the ingestion pipeline

The external news source, the LLM extractor, the image resolver and the
date parser are oracles; the pipeline body is embedded as pure functions
over their results. -/

structure RawArticle where
  title : String
  description : String
  content : String
  url : String
  publishedAt : String
deriving DecidableEq

structure AIContent where
  name : String
  catchy_title : String
  summary : String
deriving DecidableEq

structure NewsCard where
  id : String
  name : String
  image_url : String
  catchy_title : String
  summary : String
  link : String
  published_at : String
deriving DecidableEq

/-- The normalization tail of main.py extract_people_and_generate_content,
applied to the three JSON fields the extractor returned: strip each (a
missing field counts as empty), give up when the name is empty.  The
word-count cap on catchy_title is commented out in the source and therefore
absent here. -/
def normalizeExtraction (name0 catchy0 summary0 : Option String) : Option AIContent :=
  let name := pyStrip (name0.getD "")
  let catchy := pyStrip (catchy0.getD "")
  let summary := pyStrip (summary0.getD "")
  if name = "" then none
  else some { name := name, catchy_title := catchy, summary := summary }

/-- The per-name body of the fan-out loop in process_news_pipeline: strip,
skip empty, skip invalid, else resolve an image and append a card. -/
def cardStep (ai : AIContent) (article : RawArticle) (imageFor : String → String)
    (acc : List NewsCard) (nm : String) : List NewsCard :=
  let name := pyStrip nm
  if name = "" then acc
  else if is_valid_person_name name = false then acc
  else acc ++ [{ id := toString (acc.length + 1), name := name, image_url := imageFor name,
                 catchy_title := ai.catchy_title, summary := ai.summary,
                 link := article.url, published_at := article.publishedAt }]

/-- The per-article body of process_news_pipeline: extract, skip the
article when extraction yields nothing, else fan out over the comma-joined
names. -/
def articleStep (extract : RawArticle → Option AIContent) (imageFor : String → String)
    (acc : List NewsCard) (article : RawArticle) : List NewsCard :=
  match extract article with
  | none => acc
  | some ai => (pySplitComma ai.name).foldl (cardStep ai article imageFor) acc

/-- Card assembly of process_news_pipeline over the fetched batch. -/
def buildCards (articles : List RawArticle) (extract : RawArticle → Option AIContent)
    (imageFor : String → String) : List NewsCard :=
  articles.foldl (articleStep extract imageFor) []

/-! ## crud.py: ingest_newscards over the whole database state -/

structure AppState where
  news_cards_db : List NewsCard
  people : List Person
  articles : List Article
  assocs : List PersonArticle
deriving DecidableEq

/-- One iteration of crud.py ingest_newscards: strip the name, read the
card image, let the catchy title fall back to the name and the summary to
the empty string, parse the timestamp (failure yields none), then resolve
person, article and association in that order.  The association scan runs
against the session view (committed rows only, see AssocSession). -/
def ingest_card (parseDate : String → Option Nat) (acc : AppState × AssocSession)
    (c : NewsCard) : AppState × AssocSession :=
  let st := acc.1
  let person_name := pyStrip c.name
  let person_img : Option String := some c.image_url
  let title := if c.catchy_title = "" then c.name else c.catchy_title
  let summary := c.summary
  let published_at := parseDate c.published_at
  let pr := get_or_create_person st.people person_name person_img
  let ar := get_or_create_article st.articles title summary c.link published_at person_img none
  let lr := link_person_article acc.2 pr.1.id ar.1.id true
  ({ st with people := pr.2, articles := ar.2 }, lr.2)

/-- crud.py ingest_newscards: open a session over the stored association
table, fold ingest_card over the cards, then db.commit persists the pending
association inserts. -/
def ingest_newscards (parseDate : String → Option Nat) (st : AppState)
    (cards : List NewsCard) : AppState :=
  let r := cards.foldl (ingest_card parseDate) (st, { committed := st.assocs, pending := [] })
  { r.1 with assocs := (commitSession r.2).committed }

/-- main.py run_pipeline_and_ingest: run the pipeline (a fetch failure
propagates before anything is written), atomically replace the in-memory
card view, then ingest the assembled cards when there are any. -/
def run_pipeline_and_ingest (fetch : Except String (List RawArticle))
    (extract : RawArticle → Option AIContent) (imageFor : String → String)
    (parseDate : String → Option Nat) (st : AppState) :
    Except String Unit × AppState :=
  match fetch with
  | .error e => (.error e, st)
  | .ok articles =>
      let cards := buildCards articles extract imageFor
      let st1 := { st with news_cards_db := cards }
      if cards.isEmpty then (.ok (), st1)
      else (.ok (), ingest_newscards parseDate st1 cards)

/-- Claim C8: when the news fetch fails, the run aborts with that error and
the state — the card view and all three tables — is returned exactly as it
was. -/
theorem C8_fetch_failure_aborts (e : String) (extract : RawArticle → Option AIContent)
    (imageFor : String → String) (parseDate : String → Option Nat) (st : AppState) :
    run_pipeline_and_ingest (.error e) extract imageFor parseDate st = (.error e, st) := rfl

/-- Every card accumulated by the fan-out fold either was already in the
accumulator or carries the catchy title of the extraction verbatim. -/
theorem mem_foldl_cardStep (ai : AIContent) (article : RawArticle)
    (imageFor : String → String) (l : List String) (acc : List NewsCard) (card : NewsCard)
    (h : card ∈ l.foldl (cardStep ai article imageFor) acc) :
    card ∈ acc ∨ card.catchy_title = ai.catchy_title := by
  induction l generalizing acc with
  | nil => exact .inl h
  | cons nm t ih =>
      rcases ih _ h with h2 | h2
      · simp only [cardStep] at h2
        split_ifs at h2
        · exact .inl h2
        · exact .inl h2
        · rcases List.mem_append.mp h2 with h3 | h3
          · exact .inl h3
          · right
            simp only [List.mem_singleton] at h3
            rw [h3]
      · exact .inr h2

/-- Claim C9 as stated is false: a six-word catchy title (over both the cap
of the commented-out trimming code and the under-four-words prompt budget)
survives normalization verbatim, and the card assembled from it stores the
full six-word title rather than any trimmed prefix. -/
theorem C9_counterexample :
    normalizeExtraction (some "Jane Doe") (some "one two three four five six") (some "sum")
      = some { name := "Jane Doe", catchy_title := "one two three four five six",
               summary := "sum" } ∧
    (pySplitWs "one two three four five six").length = 6 ∧
    (buildCards [{ title := "t", description := "d", content := "c", url := "http://u",
                   publishedAt := "2025-10-10T13:28:17Z" }]
        (fun _ => some { name := "Jane Doe", catchy_title := "one two three four five six",
                         summary := "sum" })
        (fun _ => "img")).map (fun c => c.catchy_title)
      = ["one two three four five six"] := by
  decide

/-- Claim C9 (amended): no length cap is applied to the catchy title after
extraction; the pipeline stores the stripped extractor output verbatim —
every assembled card carries the catchy title of its extraction unchanged,
whatever its word count. -/
theorem C9_amended (name0 catchy0 summary0 : Option String) (ai : AIContent)
    (article : RawArticle) (imageFor : String → String) (card : NewsCard)
    (h : normalizeExtraction name0 catchy0 summary0 = some ai)
    (hc : card ∈ buildCards [article] (fun _ => some ai) imageFor) :
    ai.catchy_title = pyStrip (catchy0.getD "") ∧
    card.catchy_title = ai.catchy_title := by
  constructor
  · simp only [normalizeExtraction] at h
    split_ifs at h
    have h2 := Option.some.inj h
    rw [← h2]
  · simp only [buildCards, List.foldl_cons, List.foldl_nil, articleStep] at hc
    rcases mem_foldl_cardStep ai article imageFor _ _ card hc with h2 | h2
    · exact absurd h2 (List.not_mem_nil card)
    · exact h2

/-- Closed witness for the amended C9 at a concrete extraction and card. -/
theorem C9_amended_witness :
    (normalizeExtraction (some "Jane Doe") (some "one two three four five six") (some "sum")
      = some { name := "Jane Doe", catchy_title := "one two three four five six",
               summary := "sum" }) ∧
    ({ id := "1", name := "Jane Doe", image_url := "img",
       catchy_title := "one two three four five six", summary := "sum", link := "http://u",
       published_at := "2025" } : NewsCard) ∈
      buildCards [{ title := "t", description := "d", content := "c", url := "http://u",
                    publishedAt := "2025" }]
        (fun _ => some { name := "Jane Doe", catchy_title := "one two three four five six",
                         summary := "sum" })
        (fun _ => "img") ∧
    ("one two three four five six"
        = pyStrip ((some "one two three four five six").getD "") ∧
      ({ id := "1", name := "Jane Doe", image_url := "img",
         catchy_title := "one two three four five six", summary := "sum", link := "http://u",
         published_at := "2025" } : NewsCard).catchy_title
        = ("one two three four five six")) :=
  ⟨by decide, by decide,
   C9_amended (some "Jane Doe") (some "one two three four five six") (some "sum")
     { name := "Jane Doe", catchy_title := "one two three four five six", summary := "sum" }
     { title := "t", description := "d", content := "c", url := "http://u",
       publishedAt := "2025" }
     (fun _ => "img")
     { id := "1", name := "Jane Doe", image_url := "img",
       catchy_title := "one two three four five six", summary := "sum", link := "http://u",
       published_at := "2025" }
     (by decide) (by decide)⟩

/-! ## image_fetch.py: generate_person_image

The Wikipedia lookup, the Commons lookup and the anime-filter upload are
oracles returning at most one URL each (their internal failure handling
collapses to none).  The process-local cache is an association list from
the stripped lower-cased name to a URL; the TTL clock is outside the
embedding, so an entry here stands for an unexpired one. -/

def exceptIsOk {ε α : Type} : Except ε α → Bool
  | .ok _ => true
  | .error _ => false

/-- image_fetch.py single-character str.replace, as used by the avatar
fallback. -/
def pyReplaceChar (c r : Char) (s : String) : String :=
  ⟨s.data.map (fun x => if x = c then r else x)⟩

/-- image_fetch.py _avatar: the deterministic placeholder URL built from
the name. -/
def avatar (person_name : String) : String :=
  "https://ui-avatars.com/api/?name=" ++ pyReplaceChar ' ' '+' person_name
    ++ "&size=400&background=random"

/-- image_fetch.py _get_cached: look the stripped, lower-cased name up. -/
def cacheGet (cache : List (String × String)) (person_name : String) : Option String :=
  (cache.find? (fun kv => kv.1 == pyLower (pyStrip person_name))).map (fun kv => kv.2)

/-- image_fetch.py _set_cached. -/
def cacheSet (cache : List (String × String)) (person_name url : String) :
    List (String × String) :=
  (pyLower (pyStrip person_name), url) :: cache

/-- image_fetch.py generate_person_image: reject an invalid name before
anything else (in the source, raise ValueError); then try the cache, then
Wikipedia, then Commons; a usable http URL goes through the anime filter
(falling back to the unfiltered URL), anything else degrades to the avatar
placeholder; every chosen URL is cached, the placeholder included. -/
def generate_person_image (wiki commons animeFilter : String → Option String)
    (cache : List (String × String)) (person_name : String) :
    Except String (String × List (String × String)) :=
  if is_valid_person_name person_name = false then
    .error ("Invalid person name: " ++ person_name)
  else
    match cacheGet cache person_name with
    | some url => .ok (url, cache)
    | none =>
        match (wiki person_name).orElse (fun _ => commons person_name) with
        | some url =>
            if url ≠ "" ∧ "http".data.isPrefixOf url.data = true then
              let final := match animeFilter url with
                           | some a => a
                           | none => url
              .ok (final, cacheSet cache person_name final)
            else
              .ok (avatar person_name, cacheSet cache person_name (avatar person_name))
        | none => .ok (avatar person_name, cacheSet cache person_name (avatar person_name))

/-- The fan-out step consults the image resolver only on names that passed
the validator. -/
theorem cardStep_congr (ai : AIContent) (article : RawArticle) (f g : String → String)
    (hfg : ∀ n, is_valid_person_name n = true → f n = g n) (acc : List NewsCard)
    (nm : String) :
    cardStep ai article f acc nm = cardStep ai article g acc nm := by
  simp only [cardStep]
  split_ifs with h1 h2
  · rfl
  · rfl
  · rw [hfg _ (by simpa using h2)]

theorem foldl_cardStep_congr (ai : AIContent) (article : RawArticle) (f g : String → String)
    (hfg : ∀ n, is_valid_person_name n = true → f n = g n) (l : List String)
    (acc : List NewsCard) :
    l.foldl (cardStep ai article f) acc = l.foldl (cardStep ai article g) acc := by
  induction l generalizing acc with
  | nil => rfl
  | cons nm t ih =>
      simp only [List.foldl_cons]
      rw [cardStep_congr ai article f g hfg acc nm]
      exact ih _

theorem buildCards_congr_aux (extract : RawArticle → Option AIContent) (f g : String → String)
    (hfg : ∀ n, is_valid_person_name n = true → f n = g n) (articles : List RawArticle)
    (acc : List NewsCard) :
    articles.foldl (articleStep extract f) acc = articles.foldl (articleStep extract g) acc := by
  induction articles generalizing acc with
  | nil => rfl
  | cons a t ih =>
      simp only [List.foldl_cons]
      have hstep : articleStep extract f acc a = articleStep extract g acc a := by
        simp only [articleStep]
        cases extract a with
        | none => rfl
        | some ai => exact foldl_cardStep_congr ai a f g hfg _ acc
      rw [hstep]
      exact ih _

/-- Claim C10: an invalid person name makes generate_person_image fail with
the ValueError message before consulting the cache or any image source — it
never yields a placeholder or cached URL; a valid name always yields a URL
(every other branch succeeds); and the pipeline resolves images only for
names that passed the validator, so under that guard the error branch is
unreachable: the assembled cards cannot see any difference between image
resolvers that agree on valid names. -/
theorem C10_invalid_name_raises :
    (∀ (wiki commons animeFilter : String → Option String) cache name,
      is_valid_person_name name = false →
        generate_person_image wiki commons animeFilter cache name
          = .error ("Invalid person name: " ++ name)) ∧
    (∀ (wiki commons animeFilter : String → Option String) cache name,
      is_valid_person_name name = true →
        exceptIsOk (generate_person_image wiki commons animeFilter cache name) = true) ∧
    (∀ (articles : List RawArticle) (extract : RawArticle → Option AIContent)
        (f g : String → String),
      (∀ n, is_valid_person_name n = true → f n = g n) →
        buildCards articles extract f = buildCards articles extract g) := by
  refine ⟨?_, ?_, ?_⟩
  · intro wiki commons animeFilter cache name h
    simp [generate_person_image, h]
  · intro wiki commons animeFilter cache name h
    unfold generate_person_image
    rw [if_neg (by simp [h])]
    cases cacheGet cache name with
    | some url => rfl
    | none =>
        cases (wiki name).orElse (fun _ => commons name) with
        | none => rfl
        | some url =>
            simp only []
            split_ifs <;> rfl
  · intro articles extract f g hfg
    exact buildCards_congr_aux extract f g hfg articles []

/-- Closed witness for C10: a deny-listed name is rejected with the error,
a valid name succeeds, and two resolvers agreeing on valid names assemble
the same cards. -/
theorem C10_witness :
    is_valid_person_name "Taliban Spokesperson" = false ∧
    generate_person_image (fun _ => none) (fun _ => none) (fun _ => none) []
        "Taliban Spokesperson"
      = .error ("Invalid person name: " ++ "Taliban Spokesperson") ∧
    is_valid_person_name "Malala Yousafzai" = true ∧
    exceptIsOk (generate_person_image (fun _ => none) (fun _ => none) (fun _ => none) []
        "Malala Yousafzai") = true ∧
    buildCards [] (fun _ => none) (fun _ => "a") = buildCards [] (fun _ => none) (fun _ => "a") :=
  ⟨by decide,
   C10_invalid_name_raises.1 (fun _ => none) (fun _ => none) (fun _ => none) []
     "Taliban Spokesperson" (by decide),
   by decide,
   C10_invalid_name_raises.2.1 (fun _ => none) (fun _ => none) (fun _ => none) []
     "Malala Yousafzai" (by decide),
   C10_invalid_name_raises.2.2 [] (fun _ => none) (fun _ => "a") (fun _ => "a")
     (fun _ _ => rfl)⟩

end PeopleInNews
